import Mathlib

/-!
Shallow embedding of the PDF question-answering repository's ingestion and
retrieval pipeline: the data model of `custom_types.py`, the `_upsert` and
`_search` step bodies of `main.py`, and the `QdrantStorage` class of
`vector_db.py`.  External collaborators (the OpenAI embedder, the
`uuid.uuid5` hash and the Qdrant client) are modelled at the interface
boundary the code uses: the embedder and the hash are function parameters,
and the client's record store is an association list keyed by id.

Two call sites are faithfully modelled as raising `TypeError`:
`main.py` line 81 invokes the instance method `QdrantStorage.upsert` on the
class with no instance, so Python raises `TypeError` binding `self` before
the store is contacted; and `vector_db.py` line 38 passes the misspelled
keyword `colelction_name` to `QdrantClient.search`, whose required
`collection_name` parameter is therefore never supplied, so Python raises
`TypeError` while binding the call's arguments, before any query is issued.
Fallible steps return `Except`, and the external calls each step actually
issues are recorded as traces alongside the result.
-/

namespace RAGApp

/-- Payload dictionary attached to a stored point.  Ingestion builds payloads
as `{"source": source_id, "text": chunks[i]}`; a retrieved payload may be
missing either key, hence both fields are optional. -/
structure Payload where
  text : Option String
  source : Option String
  deriving DecidableEq, Repr, Inhabited

/-- Python truthiness of the optional `text` payload value as tested by
`if text:` in `vector_db.py` line 53: `None` and the empty string are falsy,
every other string is truthy. -/
def textTruthy : Option String → Bool
  | none => false
  | some t => decide (t ≠ "")

/-- Record stored in a Qdrant collection: the embedding vector together with
its payload (a `PointStruct` without its id; the id is the key of the
association list holding the record). -/
structure StoredRec where
  vector : List ℚ
  payload : Payload
  deriving DecidableEq, Repr, Inhabited

/-- Distance metric of a collection (`qdrant_client.models.Distance`). -/
inductive Distance where
  | cosine
  | dot
  | euclid
  deriving DecidableEq, Repr

/-- Collection configuration (`qdrant_client.models.VectorParams`). -/
structure VectorParams where
  size : Nat
  distance : Distance
  deriving DecidableEq, Repr

/-- A named collection's configuration and contents. -/
structure Collection where
  params : VectorParams
  points : List (String × StoredRec)
  deriving DecidableEq, Repr

/-- State of the Qdrant deployment: its named collections. -/
structure QdrantState where
  collections : List (String × Collection)
  deriving DecidableEq, Repr

/-- Result of chunking one PDF (`custom_types.RAGChunkAndSrc`). -/
structure RAGChunkAndSrc where
  chunks : List String
  source_id : String
  deriving DecidableEq, Repr

/-- Result of upserting one document (`custom_types.RAGUpsertResult`). -/
structure RAGUpsertResult where
  ingested : Nat
  deriving DecidableEq, Repr

/-- Result of a search (`custom_types.RAGSearchResult`). -/
structure RAGSearchResult where
  contexts : List String
  sources : List String
  deriving DecidableEq, Repr

/-- Name hashed by the identity derivation: the Python f-string
`f"{source_id}:{i}"` of `main.py` line 79. -/
def deriveName (source_id : String) (i : Nat) : String :=
  source_id ++ ":" ++ toString i

/-- Chunk identity `str(uuid.uuid5(uuid.NAMESPACE_URL, f"{source_id}:{i}"))`
of `main.py` line 79.  The external `uuid.uuid5` deterministic hash is the
parameter `uuid5`; collision resistance of the SHA-1 based hash is expressed
as an injectivity hypothesis where a claim needs it. -/
def derive_id (uuid5 : String → String) (source_id : String) (i : Nat) : String :=
  uuid5 (deriveName source_id i)

/-- Keys (ids) of an association list of stored points. -/
def keysOf (pts : List (String × StoredRec)) : List String :=
  pts.map Prod.fst

/-- Modelled from the spec: the external Qdrant client's record-level upsert
semantics, "for each index, insert or overwrite the record keyed by
`ids[i]`" — insert-or-overwrite by identifier, last-writer-wins per id.  The
client library itself is not part of the repository. -/
def upsertOne (pts : List (String × StoredRec)) (id : String) (r : StoredRec) :
    List (String × StoredRec) :=
  if id ∈ keysOf pts then
    pts.map (fun p => if p.1 = id then (id, r) else p)
  else
    pts ++ [(id, r)]

/-- Batch upsert `self.client.upsert(self.collection, points=points)`: the
points are applied to the store in order. -/
def clientUpsert (pts : List (String × StoredRec))
    (points : List (String × StoredRec)) : List (String × StoredRec) :=
  points.foldl (fun acc p => upsertOne acc p.1 p.2) pts

/-- Method `QdrantStorage.upsert` (`vector_db.py` lines 28-32) as it would
execute on an instance: builds `points = [PointStruct(id=ids[i],
vector=vectors[i], payload=payloads[i]) for i in range(len(ids))]` and
issues one batch upsert of those points.  No caller in the repository ever
reaches this body: the only call site, `main.py` line 81, invokes it on the
class without an instance and raises `TypeError` instead. -/
def QdrantStorage.upsert (pts : List (String × StoredRec)) (ids : List String)
    (vectors : List (List ℚ)) (payloads : List Payload) :
    List (String × StoredRec) :=
  let points := (List.range ids.length).map
    (fun i => (ids.getD i "", StoredRec.mk (vectors.getD i []) (payloads.getD i default)))
  clientUpsert pts points

/-- Configuration error taxonomy relevant to the store constructor. -/
inductive ConfigError where
  | dimensionMismatch
  deriving DecidableEq, Repr

/-- Python exceptions raised by the embedded code: the `TypeError` raised by
a call whose arguments fail to bind, and a propagated configuration
error. -/
inductive PyError where
  | typeError
  | configError (e : ConfigError)
  deriving DecidableEq, Repr

/-- Record of one batch sent to the external embedder `embed_texts`. -/
structure EmbedCall where
  inputs : List String
  deriving DecidableEq, Repr

/-- Record of one call reaching the store's upsert. -/
structure UpsertCall where
  ids : List String
  vectors : List (List ℚ)
  payloads : List Payload
  deriving DecidableEq, Repr

/-- Step body `_upsert` of `rag_ingest_pdf` (`main.py` lines 75-84), with the
external calls it issues recorded in order: the second component lists the
batches sent to `embed_texts` and the third the calls reaching the store's
upsert.  Lines 76-80 execute: the embedder is called on the whole chunk
list (even when it is empty) and the ids and payloads are computed as pure
values.  Line 81 then reads `QdrantStorage.upsert(ids=ids, vectors=vecs,
payloads=payloads)`: the instance method is invoked on the class with no
instance, its required `self` parameter is never bound, and Python raises
`TypeError` — before the store is contacted, so the upsert-call trace is
empty, and line 84's `return RAGUpsertResult(ingested=len(chunks))` is
unreachable. -/
def upsertStep (uuid5 : String → String) (embed : List String → List (List ℚ))
    (chunks_and_src : RAGChunkAndSrc) :
    Except PyError RAGUpsertResult × List EmbedCall × List UpsertCall :=
  let chunks := chunks_and_src.chunks
  let source_id := chunks_and_src.source_id
  let _vecs := embed chunks
  let _ids := (List.range chunks.length).map (fun i => derive_id uuid5 source_id i)
  let _payloads := (List.range chunks.length).map
    (fun i => Payload.mk (some (chunks.getD i "")) (some source_id))
  (Except.error PyError.typeError, [EmbedCall.mk chunks], [])

/-- Effect of one ingestion run on the stored points of the collection: the
calls that reached the store's upsert, as recorded by `upsertStep`, applied
in order.  Since the run raises `TypeError` before the store is contacted,
the trace is empty and the store is left untouched. -/
def ingestPoints (uuid5 : String → String) (embed : List String → List (List ℚ))
    (pts : List (String × StoredRec)) (chunks : List String) (source_id : String) :
    List (String × StoredRec) :=
  ((upsertStep uuid5 embed (RAGChunkAndSrc.mk chunks source_id)).2.2).foldl
    (fun acc c => QdrantStorage.upsert acc c.ids c.vectors c.payloads) pts

/-- Constructor `QdrantStorage.__init__` (`vector_db.py` lines 12-23): if the
collection does not exist it is created with `VectorParams(size=dim,
distance=Distance.COSINE)`; if it already exists, nothing further happens.
The `Except` codomain makes a raised configuration error representable; this
code never raises one. -/
def QdrantStorage.init (st : QdrantState) (collection : String) (dim : Nat) :
    Except ConfigError QdrantState :=
  if (st.collections.lookup collection).isSome then
    Except.ok st
  else
    Except.ok (QdrantState.mk (st.collections ++
      [(collection, Collection.mk (VectorParams.mk dim Distance.cosine) [])]))

/-- Record of one query actually issued to the external client's search. -/
structure ClientQuery where
  limit : Nat
  deriving DecidableEq, Repr

/-- Call `self.client.search(colelction_name=…, query_vector=…,
with_payload=…, limit=…)` of `vector_db.py` lines 37-42 as written: the
keyword `colelction_name` is misspelled, `QdrantClient.search` has no such
parameter and its required `collection_name` is never supplied, so Python
raises `TypeError` while binding the call's arguments.  No query is ever
issued to the store, so the query trace is empty. -/
def misspelledClientSearch (_sim : List ℚ → List ℚ → ℚ)
    (_pts : List (String × StoredRec)) (_query_vector : List ℚ) (_limit : Nat) :
    Except PyError (List (String × StoredRec)) × List ClientQuery :=
  (Except.error PyError.typeError, [])

/-- Text of a retrieved point, `payload.get('text', None)`; the enclosing
`getattr(r, "payload", None) or {}` is the identity here because stored
points always carry a payload record. -/
def pointText (p : String × StoredRec) : Option String := p.2.payload.text

/-- Source of a retrieved point, `payload.get('source', "")`. -/
def pointSource (p : String × StoredRec) : String := p.2.payload.source.getD ""

/-- Python `set.add` on an insertion-ordered model of the `sources` set: a
string already present is not added again. -/
def setAdd (s : List String) (x : String) : List String :=
  if x ∈ s then s else s ++ [x]

/-- Body of the accumulation loop of `QdrantStorage.search` (`vector_db.py`
lines 49-55): for each retrieved point, if its text is truthy the text is
appended to `contexts` and its source added to the `sources` set. -/
def searchStep (acc : List String × List String) (p : String × StoredRec) :
    List String × List String :=
  let text := pointText p
  let source := pointSource p
  if textTruthy text then
    (acc.1 ++ [text.getD ""], setAdd acc.2 source)
  else
    acc

/-- Method `QdrantStorage.search` (`vector_db.py` lines 36-57).  The client
call at lines 37-42 raises `TypeError` during argument binding (see
`misspelledClientSearch`), and the exception propagates, so the filtering
loop of lines 44-57 is unreachable: it is embedded in the `Except.ok`
branch, which no execution enters.  The second component records the
queries actually issued to the external client — none. -/
def QdrantStorage.search (sim : List ℚ → List ℚ → ℚ)
    (pts : List (String × StoredRec)) (query_vector : List ℚ) (top_k : Nat) :
    Except PyError RAGSearchResult × List ClientQuery :=
  match misspelledClientSearch sim pts query_vector top_k with
  | (Except.error e, queries) => (Except.error e, queries)
  | (Except.ok results, queries) =>
      let acc := results.foldl searchStep ([], [])
      (Except.ok (RAGSearchResult.mk acc.1 acc.2), queries)

/-- Points of a named collection in the store state (empty if absent). -/
def pointsOf (st : QdrantState) (collection : String) : List (String × StoredRec) :=
  ((st.collections.lookup collection).map Collection.points).getD []

/-- Step body `_search` of `rag_query_pdf_ai` (`main.py` lines 98-103): embed
the question, construct `QdrantStorage()` — whose constructor ensures the
`docs` collection exists, creating it when absent — then call
`store.search(query_vec, top_k)`, which raises `TypeError` at `vector_db.py`
line 38; the exception propagates and the `RAGSearchResult` of line 103 is
never built.  The first component is the propagated result, the second the
store state after the call: the state change made by the constructor
persists in the external store even though the step raises. -/
def searchPipeline (embed : List String → List (List ℚ))
    (sim : List ℚ → List ℚ → ℚ) (st : QdrantState) (question : String)
    (top_k : Nat) : Except PyError RAGSearchResult × QdrantState :=
  let query_vec := (embed [question]).getD 0 []
  match QdrantStorage.init st "docs" 3072 with
  | Except.error e => (Except.error (PyError.configError e), st)
  | Except.ok st1 =>
      match QdrantStorage.search sim (pointsOf st1 "docs") query_vec top_k with
      | (Except.error e, _) => (Except.error e, st1)
      | (Except.ok found, _) =>
          (Except.ok (RAGSearchResult.mk found.contexts found.sources), st1)

/-! Helper lemmas about strings and the identity derivation. -/

/-- Appending the same string on the right is cancellative. -/
lemma String.append_right_cancel_of_eq (s1 s2 t : String) (h : s1 ++ t = s2 ++ t) :
    s1 = s2 := by
  apply String.ext
  have hd := congrArg String.data h
  rw [String.data_append, String.data_append] at hd
  exact List.append_cancel_right hd

/-- Distinct source ids give distinct hash inputs for every index. -/
lemma deriveName_ne_of_ne (s1 s2 : String) (i : Nat) (h : s1 ≠ s2) :
    deriveName s1 i ≠ deriveName s2 i := by
  intro hEq
  exact h (String.append_right_cancel_of_eq s1 s2 ":"
    (String.append_right_cancel_of_eq (s1 ++ ":") (s2 ++ ":") (toString i) hEq))

/-- C2: the identity derivation is deterministic — `derive_id` applied twice
to the same source id and index gives the same result — and, whenever the
underlying deterministic hash is injective (the formal counterpart of "up to
cryptographic-hash collision"), distinct source ids yield distinct derived
ids at every index, because the hashed names `source_id ++ ":" ++ i` are
themselves distinct. -/
theorem C2_derive_id_deterministic_and_distinct (uuid5 : String → String)
    (hinj : Function.Injective uuid5) (s1 s2 : String) (i : Nat) (hne : s1 ≠ s2) :
    derive_id uuid5 s1 i = derive_id uuid5 s1 i ∧
      derive_id uuid5 s1 i ≠ derive_id uuid5 s2 i := by
  refine ⟨rfl, fun h => ?_⟩
  exact deriveName_ne_of_ne s1 s2 i hne (hinj h)

/-- Witness for C2 at the injective hash `fun s => s`, source ids `"a"` and
`"b"`, index `0`. -/
theorem C2_witness :
    derive_id (fun s => s) "a" 0 = derive_id (fun s => s) "a" 0 ∧
      derive_id (fun s => s) "a" 0 ≠ derive_id (fun s => s) "b" 0 :=
  C2_derive_id_deterministic_and_distinct (fun s => s) (fun _ _ h => h) "a" "b" 0
    (by decide)

/-- C5 counterexample: a deployment whose `docs` collection exists with
dimension `10` while the constructor is configured with `dim = 3072`:
`QdrantStorage.__init__` returns successfully with the state unchanged — no
configuration error is raised and no validation of the stored dimension
against the configured one takes place. -/
theorem C5_counterexample :
    QdrantStorage.init
        (QdrantState.mk [("docs", Collection.mk (VectorParams.mk 10 Distance.cosine) [])])
        "docs" 3072 =
      Except.ok
        (QdrantState.mk [("docs", Collection.mk (VectorParams.mk 10 Distance.cosine) [])]) ∧
      (10 : Nat) ≠ 3072 := by
  exact ⟨rfl, by decide⟩

/-- C5 amended: when the store is constructed for a collection name that
already exists, the ensure-collection step is a no-op that performs no
validation at all: whatever dimension the caller configures — matching or
not — the constructor returns successfully and leaves the state unchanged. -/
theorem C5_existing_collection_unvalidated (st : QdrantState) (collection : String)
    (dim : Nat) (h : (st.collections.lookup collection).isSome = true) :
    QdrantStorage.init st collection dim = Except.ok st := by
  unfold QdrantStorage.init
  rw [if_pos h]

/-- Witness for C5 at a one-collection state whose stored dimension `10`
differs from the configured `3072`. -/
theorem C5_witness :
    QdrantStorage.init
        (QdrantState.mk [("docs", Collection.mk (VectorParams.mk 10 Distance.cosine) [])])
        "docs" 3072 =
      Except.ok
        (QdrantState.mk [("docs", Collection.mk (VectorParams.mk 10 Distance.cosine) [])]) :=
  C5_existing_collection_unvalidated
    (QdrantState.mk [("docs", Collection.mk (VectorParams.mk 10 Distance.cosine) [])])
    "docs" 3072 (by decide)

/-- C1: the code bug that defeats the idempotent-ingestion claim, evaluated
at the failing input (a one-chunk document for source `doc1`, ingested
twice).  Every ingestion run raises `TypeError` at `main.py` line 81 — the
instance method `QdrantStorage.upsert` is called on the class with no
instance — so no call ever reaches the store and two runs leave any store
exactly as it was: nothing is ever stored, rather than the same records
being stored by both runs. -/
theorem C1_ingestion_raises_typeerror (pts : List (String × StoredRec)) :
    (upsertStep (fun s => s) (fun _ => [[1]]) (RAGChunkAndSrc.mk ["a"] "doc1")).1 =
      Except.error PyError.typeError ∧
    (upsertStep (fun s => s) (fun _ => [[1]]) (RAGChunkAndSrc.mk ["a"] "doc1")).2.2 = [] ∧
    ingestPoints (fun s => s) (fun _ => [[1]])
        (ingestPoints (fun s => s) (fun _ => [[1]]) pts ["a"] "doc1") ["a"] "doc1" = pts :=
  ⟨rfl, rfl, rfl⟩

/-- C3: the code evaluated at the failing input, an ingestion run with empty
chunker output.  The embedder IS called — with the empty batch — and the run
then raises `TypeError` at `main.py` line 81: no upsert call is issued and
`ingested_count = 0` is never returned, contradicting the claimed
short-circuit on all three counts. -/
theorem C3_empty_ingestion_raises_typeerror :
    upsertStep (fun s => s) (fun _ => []) (RAGChunkAndSrc.mk [] "doc") =
      (Except.error PyError.typeError, [EmbedCall.mk []], []) :=
  rfl

/-- C4: the code evaluated at the failing input, a two-chunk document.  The
run raises `TypeError` at `main.py` line 81 before any record reaches the
store: no upsert call with the `n` derived ids and payloads is ever made and
`ingested_count = n` is never returned. -/
theorem C4_nonempty_ingestion_raises_typeerror :
    upsertStep (fun s => s) (fun _ => [[1], [2]]) (RAGChunkAndSrc.mk ["a", "b"] "doc") =
      (Except.error PyError.typeError, [EmbedCall.mk ["a", "b"]], []) :=
  rfl

/-- C6: the code evaluated at the failing input, a one-record collection
queried with `top_k = 1`.  `QdrantStorage.search` raises `TypeError` at
`vector_db.py` line 38 — the misspelled `colelction_name` keyword — and
returns no record list at all, so the claimed top-k bound is about a return
that never happens. -/
theorem C6_search_raises_typeerror :
    QdrantStorage.search (fun _ _ => 0)
        [("id1", StoredRec.mk [1] (Payload.mk (some "") (some "doc")))] [1] 1 =
      (Except.error PyError.typeError, []) :=
  rfl

/-- C7: the code evaluated at the failing input, a collection whose single
record has a missing text payload, queried with `top_k = 2`.  The
`TypeError` is raised while binding the client call's arguments, so zero
queries are ever issued to the store (the query trace is empty) and the
post-retrieval filtering loop never runs. -/
theorem C7_search_issues_no_query :
    QdrantStorage.search (fun _ _ => 0)
        [("id1", StoredRec.mk [1] (Payload.mk none (some "doc")))] [1] 2 =
      (Except.error PyError.typeError, []) :=
  rfl

/-- C8: the code evaluated at the failing input, two records sharing the
source `doc`, queried with `top_k = 2`.  `QdrantStorage.search` raises
`TypeError` at `vector_db.py` line 38 and never returns the two projections
(ordered texts, distinct sources) the claim describes. -/
theorem C8_search_returns_no_projections :
    QdrantStorage.search (fun _ _ => 0)
        [("id1", StoredRec.mk [1] (Payload.mk (some "x") (some "doc"))),
         ("id2", StoredRec.mk [1] (Payload.mk (some "x") (some "doc")))] [1] 2 =
      (Except.error PyError.typeError, []) :=
  rfl

/-- C9 counterexample: against a deployment with no collections, running the
retrieval step changes the store — the `QdrantStorage()` constructor invoked
inside `_search` creates the `docs` collection before the search call
raises — so retrieval is not read-only on every state, and its result is the
propagated `TypeError`, never a returned value. -/
theorem C9_fresh_state_counterexample :
    searchPipeline (fun _ => [[1]]) (fun _ _ => 0) (QdrantState.mk []) "q" 5 =
      (Except.error PyError.typeError,
        QdrantState.mk
          [("docs", Collection.mk (VectorParams.mk 3072 Distance.cosine) [])]) ∧
      QdrantState.mk
          [("docs", Collection.mk (VectorParams.mk 3072 Distance.cosine) [])] ≠
        QdrantState.mk [] := by
  refine ⟨rfl, ?_⟩
  intro h
  exact absurd (congrArg QdrantState.collections h) (by simp)

/-- C9 amended: whenever the `docs` collection already exists, the retrieval
step leaves the entire store state (collections and all stored records)
unchanged — though the step itself raises `TypeError` inside `store.search`
(`vector_db.py` line 38) and never returns a result; when the collection is
absent, the constructor creates it empty, which is the only state change
retrieval can make. -/
theorem C9_retrieval_state_unchanged_when_docs_exists
    (embed : List String → List (List ℚ)) (sim : List ℚ → List ℚ → ℚ)
    (st : QdrantState) (question : String) (top_k : Nat)
    (h : (st.collections.lookup "docs").isSome = true) :
    searchPipeline embed sim st question top_k =
      (Except.error PyError.typeError, st) := by
  unfold searchPipeline QdrantStorage.init
  rw [if_pos h]
  rfl

/-- Witness for C9 at a one-collection state holding one record. -/
theorem C9_witness_docs_exists :
    searchPipeline (fun _ => [[1]]) (fun _ _ => 0)
        (QdrantState.mk [("docs", Collection.mk (VectorParams.mk 3072 Distance.cosine)
          [("id1", StoredRec.mk [1] (Payload.mk (some "x") (some "doc")))])])
        "q" 1 =
      (Except.error PyError.typeError,
        QdrantState.mk [("docs", Collection.mk (VectorParams.mk 3072 Distance.cosine)
          [("id1", StoredRec.mk [1] (Payload.mk (some "x") (some "doc")))])]) :=
  C9_retrieval_state_unchanged_when_docs_exists (fun _ => [[1]]) (fun _ _ => 0)
    (QdrantState.mk [("docs", Collection.mk (VectorParams.mk 3072 Distance.cosine)
      [("id1", StoredRec.mk [1] (Payload.mk (some "x") (some "doc")))])])
    "q" 1 (by decide)

/-- C10: the code evaluated at the failing input, a collection whose single
record has truthy text and no source key, queried with `top_k = 1`.
`QdrantStorage.search` raises `TypeError` at `vector_db.py` line 38 and
never returns a dict, so the claimed invariants are about returned values
the method never produces; the loop that would establish them
(`vector_db.py` lines 49-57) is unreachable. -/
theorem C10_search_never_returns_dict :
    QdrantStorage.search (fun _ _ => 0)
        [("id1", StoredRec.mk [1] (Payload.mk (some "hello") none))] [1] 1 =
      (Except.error PyError.typeError, []) :=
  rfl

end RAGApp
